import Mathlib

/-!
Verification of the host-transfer collective engine (Aluminum).

The C++ sources are embedded shallowly:
- CUDA streams and events become inductive identifier types. The single
  static `sync_event` of `HostTransferBackend` is the distinguished
  identifier `EventId.sync`; events handed out by the event pool
  (`internal::cuda::get_cuda_event`) are `EventId.pooled n` for a fresh `n`.
- Every side effect a backend call performs (recording an event on a
  stream, making a stream wait on an event, an async memcpy, the
  device-side wait on the sync flag, handing a collective state to the
  progress engine) becomes a constructor of `Action`; a call is a pure
  function returning the list of actions it performed, in order.
- The mutable globals of `src/cuda/cuda.cpp` relevant here (the
  round-robin counter of `get_internal_stream`, the event-pool supply)
  become the explicit state `CudaState`, threaded through the calls.
- `req_type = std::shared_ptr<HostTransferRequest>` becomes
  `Option HostTransferRequest` with `none` as the null request; C++
  out-parameter assignment becomes returning the updated value.
- A thrown `al_exception` becomes an `err` field holding the message;
  effects performed before the throw are kept, effects after it are not.
-/

namespace Al

/-- A CUDA stream: either a user (communicator) stream or one of the
library-internal streams, identified by its index in the
`internal_streams` array of `src/cuda/cuda.cpp`. -/
inductive CudaStream where
  | user (id : Nat)
  | internal (i : Nat)
deriving DecidableEq

/-- A CUDA event: the single static `sync_event` of `HostTransferBackend`,
or an event from the event pool, identified by allocation order. -/
inductive EventId where
  | sync
  | pooled (n : Nat)
deriving DecidableEq

/-- `Al::internal::ht::HostTransferRequest`: the completion event of the
operation and the user stream the operation was sequenced on. -/
structure HostTransferRequest where
  op_event : EventId
  orig_stream : CudaStream
deriving DecidableEq

/-- `HostTransferBackend::req_type`; `none` models the null shared_ptr. -/
abbrev ReqType := Option HostTransferRequest

/-- `HostTransferBackend::null_req`. -/
def null_req : ReqType := none

/-- `Al::ReductionOperator` is declared outside the embedded sources; its
values are opaque here. -/
abbrev ReductionOperator := Nat

/-- `Al::internal::ht::HostTransferCommunicator`: the underlying MPI
communicator handle, the rank and size, and the stream returned by
`get_stream()`. -/
structure HostTransferCommunicator where
  commId : Nat
  rank : Nat
  size : Nat
  stream : CudaStream
deriving DecidableEq

/-- One collective-state object, as created by the `do_*` helpers of
`HostTransferBackend` (`new ...AlState<T>(...)`): the constructor
arguments, with the communicator abstracted to its handle. -/
inductive CollState where
  | allreduce (sendbuf recvbuf count : Nat) (op : ReductionOperator)
      (commId : Nat) (stream : CudaStream)
  | send (sendbuf count dest commId : Nat) (stream : CudaStream)
  | recv (recvbuf count src commId : Nat) (stream : CudaStream)
  | sendrecv (sendbuf send_count dest recvbuf recv_count src commId : Nat)
      (stream : CudaStream)
  | allgather (sendbuf recvbuf count commId : Nat) (stream : CudaStream)
  | alltoall (sendbuf recvbuf count commId : Nat) (stream : CudaStream)
  | bcast (buf count root commId : Nat) (stream : CudaStream)
  | gather (sendbuf recvbuf count root commId : Nat) (stream : CudaStream)
  | reduce (sendbuf recvbuf count : Nat) (op : ReductionOperator)
      (root commId : Nat) (stream : CudaStream)
  | reduce_scatter (sendbuf recvbuf count : Nat) (op : ReductionOperator)
      (commId : Nat) (stream : CudaStream)
  | scatter (sendbuf recvbuf count root commId : Nat) (stream : CudaStream)
deriving DecidableEq

/-- A side effect of a backend call, in the order performed.
`memcpyD2H dst src len s` is `cudaMemcpyAsync` device-to-host on stream
`s` (`dst` an offset into the pinned staging buffer, `src` a device
address, `len` in elements); `memcpyH2D` the reverse direction
(`dst` a device address, `src` a staging-buffer offset); `gpuWait s` is
the sync-flag wait `gpu_wait.wait(s)`; `enqueue st` is
`get_progress_engine()->enqueue(state)`. -/
inductive Action where
  | eventRecord (e : EventId) (s : CudaStream)
  | streamWaitEvent (s : CudaStream) (e : EventId)
  | memcpyD2H (dst src len : Nat) (s : CudaStream)
  | memcpyH2D (dst src len : Nat) (s : CudaStream)
  | gpuWait (s : CudaStream)
  | enqueue (st : CollState)
deriving DecidableEq

/-- The mutable globals of `src/cuda/cuda.cpp` used by the backend calls:
the static round-robin counter `cur_stream` of `get_internal_stream`, and
the supply counter of the event pool (each `get_cuda_event` call yields a
distinct pooled event). -/
structure CudaState where
  curStream : Nat
  nextEvent : Nat
deriving DecidableEq

/-- `constexpr int num_internal_streams = 5` of `src/cuda/cuda.cpp`. -/
def num_internal_streams : Nat := 5

/-- The modulus of `size_t`: `cur_stream` in `src/cuda/cuda.cpp` is a
`static size_t`, a 64-bit unsigned counter whose increment wraps. -/
def size_t_mod : Nat := 2 ^ 64

/-- `internal::cuda::get_internal_stream()`: returns
`internal_streams[cur_stream++ % num_internal_streams]` — the stream at
index (old counter mod 5) — and post-increments the counter, which as a
`size_t` wraps modulo `2 ^ 64`. -/
def get_internal_stream (cs : CudaState) : CudaStream × CudaState :=
  (CudaStream.internal (cs.curStream % num_internal_streams),
   { cs with curStream := (cs.curStream + 1) % size_t_mod })

/-- `internal::cuda::get_cuda_event()`: a fresh pooled event. -/
def get_cuda_event (cs : CudaState) : EventId × CudaState :=
  (EventId.pooled cs.nextEvent, { cs with nextEvent := cs.nextEvent + 1 })

/-- `HostTransferBackend::sync_internal_stream_with_comm`: record the
static `sync_event` on the communicator's stream, then make the internal
stream wait on it. -/
def sync_internal_stream_with_comm (internal_stream : CudaStream)
    (comm : HostTransferCommunicator) : List Action :=
  [Action.eventRecord EventId.sync comm.stream,
   Action.streamWaitEvent internal_stream EventId.sync]

/-- `HostTransferBackend::setup_completion_event`: get a pooled event,
record it on the internal stream, and build the request from that event
and the communicator's stream. -/
def setup_completion_event (internal_stream : CudaStream)
    (comm : HostTransferCommunicator) (cs : CudaState) :
    CudaState × List Action × ReqType :=
  let (event, cs1) := get_cuda_event cs
  (cs1, [Action.eventRecord event internal_stream],
   some ⟨event, comm.stream⟩)

/-- Result of a blocking backend call: the actions performed and the
message of the `al_exception` thrown, if any. Blocking calls take no
request out-parameter and never touch the CUDA globals. -/
structure BlockingResult where
  actions : List Action
  err : Option String
deriving DecidableEq

/-- Result of a non-blocking backend call: updated CUDA globals, actions
performed, the request out-parameter's value after the call, and the
message of the `al_exception` thrown, if any. -/
structure CallResult where
  cs : CudaState
  actions : List Action
  req : ReqType
  err : Option String
deriving DecidableEq

/-- `HostTransferAllreduceAlgorithm`: a C++ scoped enum over an integral
type; `automatic` has value 0, `host_transfer` value 1, and any other
integral value hits the `default` branch of the dispatch switches. -/
def allreduceAlgoAutomatic : Nat := 0

/-- `HostTransferAllreduceAlgorithm::host_transfer`. -/
def allreduceAlgoHostTransfer : Nat := 1

/-- `HostTransferCollectiveAlgorithm`: `automatic` has value 0; any other
integral value hits the `default` branch of the dispatch switches. -/
def collectiveAlgoAutomatic : Nat := 0

/-- `HostTransferBackend::do_allreduce`: create an `AllreduceAlState` and
enqueue it on the progress engine. -/
def do_allreduce (sendbuf recvbuf count : Nat) (op : ReductionOperator)
    (comm : HostTransferCommunicator) (stream : CudaStream) : List Action :=
  [Action.enqueue (CollState.allreduce sendbuf recvbuf count op comm.commId stream)]

/-- `HostTransferBackend::do_send`. -/
def do_send (sendbuf count dest : Nat) (comm : HostTransferCommunicator)
    (stream : CudaStream) : List Action :=
  [Action.enqueue (CollState.send sendbuf count dest comm.commId stream)]

/-- `HostTransferBackend::do_recv`. -/
def do_recv (recvbuf count src : Nat) (comm : HostTransferCommunicator)
    (stream : CudaStream) : List Action :=
  [Action.enqueue (CollState.recv recvbuf count src comm.commId stream)]

/-- `HostTransferBackend::do_sendrecv`. -/
def do_sendrecv (sendbuf send_count dest recvbuf recv_count src : Nat)
    (comm : HostTransferCommunicator) (stream : CudaStream) : List Action :=
  [Action.enqueue (CollState.sendrecv sendbuf send_count dest recvbuf
      recv_count src comm.commId stream)]

/-- `HostTransferBackend::do_allgather`. -/
def do_allgather (sendbuf recvbuf count : Nat)
    (comm : HostTransferCommunicator) (stream : CudaStream) : List Action :=
  [Action.enqueue (CollState.allgather sendbuf recvbuf count comm.commId stream)]

/-- `HostTransferBackend::do_alltoall`. -/
def do_alltoall (sendbuf recvbuf count : Nat)
    (comm : HostTransferCommunicator) (stream : CudaStream) : List Action :=
  [Action.enqueue (CollState.alltoall sendbuf recvbuf count comm.commId stream)]

/-- `HostTransferBackend::do_bcast`. -/
def do_bcast (buf count root : Nat)
    (comm : HostTransferCommunicator) (stream : CudaStream) : List Action :=
  [Action.enqueue (CollState.bcast buf count root comm.commId stream)]

/-- `HostTransferBackend::do_gather`. -/
def do_gather (sendbuf recvbuf count root : Nat)
    (comm : HostTransferCommunicator) (stream : CudaStream) : List Action :=
  [Action.enqueue (CollState.gather sendbuf recvbuf count root comm.commId stream)]

/-- `HostTransferBackend::do_reduce`. -/
def do_reduce (sendbuf recvbuf count : Nat) (op : ReductionOperator)
    (root : Nat) (comm : HostTransferCommunicator) (stream : CudaStream) :
    List Action :=
  [Action.enqueue (CollState.reduce sendbuf recvbuf count op root comm.commId stream)]

/-- `HostTransferBackend::do_reduce_scatter`. -/
def do_reduce_scatter (sendbuf recvbuf count : Nat) (op : ReductionOperator)
    (comm : HostTransferCommunicator) (stream : CudaStream) : List Action :=
  [Action.enqueue (CollState.reduce_scatter sendbuf recvbuf count op comm.commId stream)]

/-- `HostTransferBackend::do_scatter`. -/
def do_scatter (sendbuf recvbuf count root : Nat)
    (comm : HostTransferCommunicator) (stream : CudaStream) : List Action :=
  [Action.enqueue (CollState.scatter sendbuf recvbuf count root comm.commId stream)]

/-- `HostTransferBackend::Allreduce` (blocking, two-buffer form). -/
def Allreduce (sendbuf recvbuf count : Nat) (op : ReductionOperator)
    (comm : HostTransferCommunicator) (algo : Nat) : BlockingResult :=
  if count = 0 then ⟨[], none⟩
  else if algo = allreduceAlgoAutomatic ∨ algo = allreduceAlgoHostTransfer then
    ⟨do_allreduce sendbuf recvbuf count op comm comm.stream, none⟩
  else ⟨[], some "Invalid algorithm"⟩

/-- `HostTransferBackend::NonblockingAllreduce` (two-buffer form). -/
def NonblockingAllreduce (sendbuf recvbuf count : Nat)
    (op : ReductionOperator) (comm : HostTransferCommunicator)
    (req : ReqType) (algo : Nat) (cs : CudaState) : CallResult :=
  if count = 0 then ⟨cs, [], req, none⟩
  else
    let (internal_stream, cs1) := get_internal_stream cs
    let syncActs := sync_internal_stream_with_comm internal_stream comm
    if algo = allreduceAlgoAutomatic ∨ algo = allreduceAlgoHostTransfer then
      let opActs := do_allreduce sendbuf recvbuf count op comm internal_stream
      let (cs2, compActs, req1) := setup_completion_event internal_stream comm cs1
      ⟨cs2, syncActs ++ opActs ++ compActs, req1, none⟩
    else ⟨cs1, syncActs, req, some "Invalid algorithm"⟩

/-- `HostTransferBackend::NonblockingSend`. -/
def NonblockingSend (sendbuf count dest : Nat)
    (comm : HostTransferCommunicator) (req : ReqType) (cs : CudaState) :
    CallResult :=
  let (internal_stream, cs1) := get_internal_stream cs
  let syncActs := sync_internal_stream_with_comm internal_stream comm
  let opActs := do_send sendbuf count dest comm internal_stream
  let (cs2, compActs, req1) := setup_completion_event internal_stream comm cs1
  ⟨cs2, syncActs ++ opActs ++ compActs, req1, none⟩

/-- `HostTransferBackend::NonblockingRecv`. -/
def NonblockingRecv (recvbuf count src : Nat)
    (comm : HostTransferCommunicator) (req : ReqType) (cs : CudaState) :
    CallResult :=
  let (internal_stream, cs1) := get_internal_stream cs
  let syncActs := sync_internal_stream_with_comm internal_stream comm
  let opActs := do_recv recvbuf count src comm internal_stream
  let (cs2, compActs, req1) := setup_completion_event internal_stream comm cs1
  ⟨cs2, syncActs ++ opActs ++ compActs, req1, none⟩

/-- `HostTransferBackend::NonblockingSendRecv`. -/
def NonblockingSendRecv (sendbuf send_count dest recvbuf recv_count src : Nat)
    (comm : HostTransferCommunicator) (req : ReqType) (cs : CudaState) :
    CallResult :=
  let (internal_stream, cs1) := get_internal_stream cs
  let syncActs := sync_internal_stream_with_comm internal_stream comm
  let opActs := do_sendrecv sendbuf send_count dest recvbuf recv_count src
      comm internal_stream
  let (cs2, compActs, req1) := setup_completion_event internal_stream comm cs1
  ⟨cs2, syncActs ++ opActs ++ compActs, req1, none⟩

/-- `HostTransferBackend::Allgather` (blocking, two-buffer form). -/
def Allgather (sendbuf recvbuf count : Nat)
    (comm : HostTransferCommunicator) (algo : Nat) : BlockingResult :=
  if count = 0 then ⟨[], none⟩
  else if algo = collectiveAlgoAutomatic then
    ⟨do_allgather sendbuf recvbuf count comm comm.stream, none⟩
  else ⟨[], some "HostTransferAllgather: Invalid algorithm"⟩

/-- `HostTransferBackend::NonblockingAllgather` (two-buffer form). -/
def NonblockingAllgather (sendbuf recvbuf count : Nat)
    (comm : HostTransferCommunicator) (req : ReqType) (algo : Nat)
    (cs : CudaState) : CallResult :=
  if count = 0 then ⟨cs, [], req, none⟩
  else
    let (internal_stream, cs1) := get_internal_stream cs
    let syncActs := sync_internal_stream_with_comm internal_stream comm
    if algo = collectiveAlgoAutomatic then
      let opActs := do_allgather sendbuf recvbuf count comm internal_stream
      let (cs2, compActs, req1) := setup_completion_event internal_stream comm cs1
      ⟨cs2, syncActs ++ opActs ++ compActs, req1, none⟩
    else ⟨cs1, syncActs, req, some "HostTransferAllgather: Invalid algorithm"⟩

/-- `HostTransferBackend::Alltoall` (blocking, two-buffer form). -/
def Alltoall (sendbuf recvbuf count : Nat)
    (comm : HostTransferCommunicator) (algo : Nat) : BlockingResult :=
  if count = 0 then ⟨[], none⟩
  else if algo = collectiveAlgoAutomatic then
    ⟨do_alltoall sendbuf recvbuf count comm comm.stream, none⟩
  else ⟨[], some "HostTransferAlltoall: Invalid algorithm"⟩

/-- `HostTransferBackend::NonblockingAlltoall` (two-buffer form). -/
def NonblockingAlltoall (sendbuf recvbuf count : Nat)
    (comm : HostTransferCommunicator) (req : ReqType) (algo : Nat)
    (cs : CudaState) : CallResult :=
  if count = 0 then ⟨cs, [], req, none⟩
  else
    let (internal_stream, cs1) := get_internal_stream cs
    let syncActs := sync_internal_stream_with_comm internal_stream comm
    if algo = collectiveAlgoAutomatic then
      let opActs := do_alltoall sendbuf recvbuf count comm internal_stream
      let (cs2, compActs, req1) := setup_completion_event internal_stream comm cs1
      ⟨cs2, syncActs ++ opActs ++ compActs, req1, none⟩
    else ⟨cs1, syncActs, req, some "Invalid algorithm"⟩

/-- `HostTransferBackend::Bcast` (blocking). -/
def Bcast (buf count root : Nat)
    (comm : HostTransferCommunicator) (algo : Nat) : BlockingResult :=
  if count = 0 then ⟨[], none⟩
  else if algo = collectiveAlgoAutomatic then
    ⟨do_bcast buf count root comm comm.stream, none⟩
  else ⟨[], some "HostTransferBcast: Invalid algorithm"⟩

/-- `HostTransferBackend::NonblockingBcast`. -/
def NonblockingBcast (buf count root : Nat)
    (comm : HostTransferCommunicator) (req : ReqType) (algo : Nat)
    (cs : CudaState) : CallResult :=
  if count = 0 then ⟨cs, [], req, none⟩
  else
    let (internal_stream, cs1) := get_internal_stream cs
    let syncActs := sync_internal_stream_with_comm internal_stream comm
    if algo = collectiveAlgoAutomatic then
      let opActs := do_bcast buf count root comm internal_stream
      let (cs2, compActs, req1) := setup_completion_event internal_stream comm cs1
      ⟨cs2, syncActs ++ opActs ++ compActs, req1, none⟩
    else ⟨cs1, syncActs, req, some "HostTransferBcast: Invalid algorithm"⟩

/-- `HostTransferBackend::Gather` (blocking, two-buffer form). -/
def Gather (sendbuf recvbuf count root : Nat)
    (comm : HostTransferCommunicator) (algo : Nat) : BlockingResult :=
  if count = 0 then ⟨[], none⟩
  else if algo = collectiveAlgoAutomatic then
    ⟨do_gather sendbuf recvbuf count root comm comm.stream, none⟩
  else ⟨[], some "HostTransferGather: Invalid algorithm"⟩

/-- `HostTransferBackend::NonblockingGather` (two-buffer form). -/
def NonblockingGather (sendbuf recvbuf count root : Nat)
    (comm : HostTransferCommunicator) (req : ReqType) (algo : Nat)
    (cs : CudaState) : CallResult :=
  if count = 0 then ⟨cs, [], req, none⟩
  else
    let (internal_stream, cs1) := get_internal_stream cs
    let syncActs := sync_internal_stream_with_comm internal_stream comm
    if algo = collectiveAlgoAutomatic then
      let opActs := do_gather sendbuf recvbuf count root comm internal_stream
      let (cs2, compActs, req1) := setup_completion_event internal_stream comm cs1
      ⟨cs2, syncActs ++ opActs ++ compActs, req1, none⟩
    else ⟨cs1, syncActs, req, some "Invalid algorithm"⟩

/-- `HostTransferBackend::Reduce` (blocking, two-buffer form). -/
def Reduce (sendbuf recvbuf count : Nat) (op : ReductionOperator)
    (root : Nat) (comm : HostTransferCommunicator) (algo : Nat) :
    BlockingResult :=
  if count = 0 then ⟨[], none⟩
  else if algo = collectiveAlgoAutomatic then
    ⟨do_reduce sendbuf recvbuf count op root comm comm.stream, none⟩
  else ⟨[], some "HostTransferReduce: Invalid algorithm"⟩

/-- `HostTransferBackend::NonblockingReduce` (two-buffer form). -/
def NonblockingReduce (sendbuf recvbuf count : Nat) (op : ReductionOperator)
    (root : Nat) (comm : HostTransferCommunicator) (req : ReqType)
    (algo : Nat) (cs : CudaState) : CallResult :=
  if count = 0 then ⟨cs, [], req, none⟩
  else
    let (internal_stream, cs1) := get_internal_stream cs
    let syncActs := sync_internal_stream_with_comm internal_stream comm
    if algo = collectiveAlgoAutomatic then
      let opActs := do_reduce sendbuf recvbuf count op root comm internal_stream
      let (cs2, compActs, req1) := setup_completion_event internal_stream comm cs1
      ⟨cs2, syncActs ++ opActs ++ compActs, req1, none⟩
    else ⟨cs1, syncActs, req, some "Invalid algorithm"⟩

/-- `HostTransferBackend::Reduce_scatter` (blocking, two-buffer form). -/
def Reduce_scatter (sendbuf recvbuf count : Nat) (op : ReductionOperator)
    (comm : HostTransferCommunicator) (algo : Nat) : BlockingResult :=
  if count = 0 then ⟨[], none⟩
  else if algo = collectiveAlgoAutomatic then
    ⟨do_reduce_scatter sendbuf recvbuf count op comm comm.stream, none⟩
  else ⟨[], some "HostTransferReduce_scatter: Invalid algorithm"⟩

/-- `HostTransferBackend::NonblockingReduce_scatter` (two-buffer form). -/
def NonblockingReduce_scatter (sendbuf recvbuf count : Nat)
    (op : ReductionOperator) (comm : HostTransferCommunicator)
    (req : ReqType) (algo : Nat) (cs : CudaState) : CallResult :=
  if count = 0 then ⟨cs, [], req, none⟩
  else
    let (internal_stream, cs1) := get_internal_stream cs
    let syncActs := sync_internal_stream_with_comm internal_stream comm
    if algo = collectiveAlgoAutomatic then
      let opActs := do_reduce_scatter sendbuf recvbuf count op comm internal_stream
      let (cs2, compActs, req1) := setup_completion_event internal_stream comm cs1
      ⟨cs2, syncActs ++ opActs ++ compActs, req1, none⟩
    else ⟨cs1, syncActs, req, some "HostTransferReduce_scatter: Invalid algorithm"⟩

/-- `HostTransferBackend::Scatter` (blocking, two-buffer form). -/
def Scatter (sendbuf recvbuf count root : Nat)
    (comm : HostTransferCommunicator) (algo : Nat) : BlockingResult :=
  if count = 0 then ⟨[], none⟩
  else if algo = collectiveAlgoAutomatic then
    ⟨do_scatter sendbuf recvbuf count root comm comm.stream, none⟩
  else ⟨[], some "HostTransferScatter: Invalid algorithm"⟩

/-- `HostTransferBackend::NonblockingScatter` (two-buffer form). -/
def NonblockingScatter (sendbuf recvbuf count root : Nat)
    (comm : HostTransferCommunicator) (req : ReqType) (algo : Nat)
    (cs : CudaState) : CallResult :=
  if count = 0 then ⟨cs, [], req, none⟩
  else
    let (internal_stream, cs1) := get_internal_stream cs
    let syncActs := sync_internal_stream_with_comm internal_stream comm
    if algo = collectiveAlgoAutomatic then
      let opActs := do_scatter sendbuf recvbuf count root comm internal_stream
      let (cs2, compActs, req1) := setup_completion_event internal_stream comm cs1
      ⟨cs2, syncActs ++ opActs ++ compActs, req1, none⟩
    else ⟨cs1, syncActs, req, some "Invalid algorithm"⟩

/-- `Test<HostTransferBackend>` from `ht_impl.hpp`. `eventDone e` models
`cudaEventQuery(e) == cudaSuccess`, the non-blocking completion query.
Returns the boolean result and the (possibly reset) request. -/
def Test (eventDone : EventId → Bool) (req : ReqType) : Bool × ReqType :=
  match req with
  | none => (true, none)
  | some r =>
    if eventDone r.op_event then (true, null_req) else (false, some r)

/-- `Wait<HostTransferBackend>` from `ht_impl.hpp`. Returns the request
(which the source never modifies) and the list of operations performed:
for a non-null request, exactly one `cudaStreamWaitEvent` enqueued into
the request's original stream; nothing blocks the host (the source
performs no host-side synchronization call at all). -/
def Wait (req : ReqType) : ReqType × List Action :=
  match req with
  | none => (req, [])
  | some r => (req, [Action.streamWaitEvent r.orig_stream r.op_event])

/-- C1: `Wait` on a non-null request performs exactly one device-stream
operation — a stream wait on the request's end-side event, enqueued into
the request's original user stream — leaves the request unchanged, and
returns (the embedding records every operation the source performs, and
no host-blocking call occurs in it); `Wait` on the null request performs
no operation at all. -/
theorem wait_enqueues_stream_wait_only :
    (∀ r : HostTransferRequest,
      Wait (some r) =
        (some r, [Action.streamWaitEvent r.orig_stream r.op_event])) ∧
    Wait null_req = (null_req, []) :=
  ⟨fun _ => rfl, rfl⟩

/-- C2: `Test` returns true iff the request is null or the non-blocking
query of its end-side event reports completion; when it returns true on a
non-null request it resets the request to the null sentinel; when it
returns false it leaves the request unchanged. -/
theorem test_query_and_reset (eventDone : EventId → Bool) (req : ReqType) :
    ((Test eventDone req).1 = true ↔
      req = null_req ∨
        ∃ r, req = some r ∧ eventDone r.op_event = true) ∧
    (∀ r, req = some r → (Test eventDone req).1 = true →
      (Test eventDone req).2 = null_req) ∧
    ((Test eventDone req).1 = false → (Test eventDone req).2 = req) := by
  match req with
  | none => simp [Test, null_req]
  | some r =>
    by_cases h : eventDone r.op_event <;>
      simp [Test, null_req, h]

/-- Closed instance of `test_query_and_reset`: a completed non-null
request tests true and is reset to null; a pending one tests false and is
kept. -/
theorem test_query_and_reset_witness :
    ((Test (fun _ => true)
        (some ⟨EventId.pooled 0, CudaStream.user 0⟩)).1 = true) ∧
    (Test (fun _ => true)
        (some ⟨EventId.pooled 0, CudaStream.user 0⟩)).2 = null_req ∧
    (Test (fun _ => false)
        (some ⟨EventId.pooled 0, CudaStream.user 0⟩)).2 =
      some ⟨EventId.pooled 0, CudaStream.user 0⟩ :=
  ⟨rfl,
   (test_query_and_reset (fun _ => true)
      (some ⟨EventId.pooled 0, CudaStream.user 0⟩)).2.1
     ⟨EventId.pooled 0, CudaStream.user 0⟩ rfl rfl,
   (test_query_and_reset (fun _ => false)
      (some ⟨EventId.pooled 0, CudaStream.user 0⟩)).2.2 rfl⟩

/-- C3: once `Test` has returned true, the request variable holds the null
sentinel, so every subsequent `Test` (under any completion oracle) returns
true and leaves it null, and every subsequent `Wait` performs no stream
operation. -/
theorem test_true_then_stable (eventDone : EventId → Bool) (req : ReqType)
    (h : (Test eventDone req).1 = true) :
    (∀ ed2, Test ed2 (Test eventDone req).2 = (true, null_req)) ∧
    Wait (Test eventDone req).2 = (null_req, []) := by
  match req with
  | none => exact ⟨fun _ => rfl, rfl⟩
  | some r =>
    by_cases hq : eventDone r.op_event
    · simp [Test, hq, null_req, Wait]
    · simp [Test, hq] at h

/-- Closed instance of `test_true_then_stable` at a completed request:
the retest (with an oracle that now reports not-done) still returns true,
and the wait performs nothing. -/
theorem test_true_then_stable_witness :
    (Test (fun _ => true)
        (some ⟨EventId.pooled 3, CudaStream.user 1⟩)).1 = true ∧
    Test (fun _ => false)
        (Test (fun _ => true)
          (some ⟨EventId.pooled 3, CudaStream.user 1⟩)).2 =
      (true, null_req) ∧
    Wait (Test (fun _ => true)
        (some ⟨EventId.pooled 3, CudaStream.user 1⟩)).2 = (null_req, []) :=
  ⟨rfl,
   (test_true_then_stable (fun _ => true)
      (some ⟨EventId.pooled 3, CudaStream.user 1⟩) rfl).1 (fun _ => false),
   (test_true_then_stable (fun _ => true)
      (some ⟨EventId.pooled 3, CudaStream.user 1⟩) rfl).2⟩

/-- C4: every non-blocking collective of the backend called with element
count zero returns immediately: the CUDA globals are untouched, no action
at all is performed (so no state is created, nothing is enqueued, no
buffer is touched), the request out-parameter keeps its previous value,
and no exception is thrown — for every algorithm value. -/
theorem nonblocking_zero_count_noop
    (sendbuf recvbuf buf root : Nat) (op : ReductionOperator)
    (comm : HostTransferCommunicator) (req : ReqType) (algo : Nat)
    (cs : CudaState) :
    NonblockingAllreduce sendbuf recvbuf 0 op comm req algo cs =
        ⟨cs, [], req, none⟩ ∧
    NonblockingAllgather sendbuf recvbuf 0 comm req algo cs =
        ⟨cs, [], req, none⟩ ∧
    NonblockingAlltoall sendbuf recvbuf 0 comm req algo cs =
        ⟨cs, [], req, none⟩ ∧
    NonblockingBcast buf 0 root comm req algo cs = ⟨cs, [], req, none⟩ ∧
    NonblockingGather sendbuf recvbuf 0 root comm req algo cs =
        ⟨cs, [], req, none⟩ ∧
    NonblockingReduce sendbuf recvbuf 0 op root comm req algo cs =
        ⟨cs, [], req, none⟩ ∧
    NonblockingReduce_scatter sendbuf recvbuf 0 op comm req algo cs =
        ⟨cs, [], req, none⟩ ∧
    NonblockingScatter sendbuf recvbuf 0 root comm req algo cs =
        ⟨cs, [], req, none⟩ :=
  ⟨rfl, rfl, rfl, rfl, rfl, rfl, rfl, rfl⟩

/-- C10: the non-blocking point-to-point calls have no zero-count
short-circuit: for every element count, including zero, each performs the
pre-synchronization, creates and enqueues its state, and assigns a fresh
request (overwriting whatever the out-parameter held). -/
theorem nonblocking_pt2pt_always_enqueues
    (sendbuf recvbuf count send_count recv_count dest src : Nat)
    (comm : HostTransferCommunicator) (req : ReqType) (cs : CudaState) :
    NonblockingSend sendbuf count dest comm req cs =
      ⟨⟨(cs.curStream + 1) % size_t_mod, cs.nextEvent + 1⟩,
       [Action.eventRecord EventId.sync comm.stream,
        Action.streamWaitEvent
          (CudaStream.internal (cs.curStream % num_internal_streams))
          EventId.sync,
        Action.enqueue (CollState.send sendbuf count dest comm.commId
          (CudaStream.internal (cs.curStream % num_internal_streams))),
        Action.eventRecord (EventId.pooled cs.nextEvent)
          (CudaStream.internal (cs.curStream % num_internal_streams))],
       some ⟨EventId.pooled cs.nextEvent, comm.stream⟩, none⟩ ∧
    NonblockingRecv recvbuf count src comm req cs =
      ⟨⟨(cs.curStream + 1) % size_t_mod, cs.nextEvent + 1⟩,
       [Action.eventRecord EventId.sync comm.stream,
        Action.streamWaitEvent
          (CudaStream.internal (cs.curStream % num_internal_streams))
          EventId.sync,
        Action.enqueue (CollState.recv recvbuf count src comm.commId
          (CudaStream.internal (cs.curStream % num_internal_streams))),
        Action.eventRecord (EventId.pooled cs.nextEvent)
          (CudaStream.internal (cs.curStream % num_internal_streams))],
       some ⟨EventId.pooled cs.nextEvent, comm.stream⟩, none⟩ ∧
    NonblockingSendRecv sendbuf send_count dest recvbuf recv_count src
        comm req cs =
      ⟨⟨(cs.curStream + 1) % size_t_mod, cs.nextEvent + 1⟩,
       [Action.eventRecord EventId.sync comm.stream,
        Action.streamWaitEvent
          (CudaStream.internal (cs.curStream % num_internal_streams))
          EventId.sync,
        Action.enqueue (CollState.sendrecv sendbuf send_count dest recvbuf
          recv_count src comm.commId
          (CudaStream.internal (cs.curStream % num_internal_streams))),
        Action.eventRecord (EventId.pooled cs.nextEvent)
          (CudaStream.internal (cs.curStream % num_internal_streams))],
       some ⟨EventId.pooled cs.nextEvent, comm.stream⟩, none⟩ :=
  ⟨rfl, rfl, rfl⟩

/-- The CUDA globals as established by `internal::cuda::init`: the
round-robin counter starts at 0. -/
def initCudaState : CudaState := ⟨0, 0⟩

/-- The CUDA globals after `n` calls to `get_internal_stream` starting
from `init`. -/
def cudaStateAfterCalls : Nat → CudaState
  | 0 => initCudaState
  | n + 1 => (get_internal_stream (cudaStateAfterCalls n)).2

/-- The stream returned by the `n`-th call (counting from 0) to
`get_internal_stream` after `init`. -/
def nthInternalStream (n : Nat) : CudaStream :=
  (get_internal_stream (cudaStateAfterCalls n)).1

theorem curStream_after_calls (n : Nat) :
    (cudaStateAfterCalls n).curStream = n % size_t_mod := by
  induction n with
  | zero => rfl
  | succ n ih =>
    show ((cudaStateAfterCalls n).curStream + 1) % size_t_mod =
      (n + 1) % size_t_mod
    rw [ih, Nat.mod_add_mod]

/-- C8 counterexample: `cur_stream` is a 64-bit `size_t` and wraps, so
the 2^64-th call to `get_internal_stream` returns the pool stream at
index (2^64 mod 2^64) mod 5 = 0, while 2^64 mod 5 = 1: the claimed index
formula `n mod 5` fails at the concrete call ordinal n = 2^64. -/
theorem round_robin_formula_fails_at_wrap :
    nthInternalStream (2 ^ 64) = CudaStream.internal 0 ∧
    2 ^ 64 % 5 = 1 ∧
    nthInternalStream (2 ^ 64) ≠ CudaStream.internal (2 ^ 64 % 5) := by
  have h : nthInternalStream (2 ^ 64) = CudaStream.internal 0 := by
    show CudaStream.internal
      ((cudaStateAfterCalls (2 ^ 64)).curStream % num_internal_streams) =
      CudaStream.internal 0
    rw [curStream_after_calls]
    norm_num [size_t_mod, num_internal_streams]
  have h5 : 2 ^ 64 % 5 = 1 := by norm_num
  refine ⟨h, h5, ?_⟩
  rw [h, h5]
  simp

/-- C8 amended: the internal stream pool has exactly 5 streams, and the
`n`-th call to `get_internal_stream` (counting from 0, in call order)
returns the pool stream at index (n mod 2^64) mod 5 — the 64-bit counter
wraps — which equals index n mod 5 for every n below 2^64. -/
theorem internal_streams_round_robin :
    num_internal_streams = 5 ∧
    (∀ n, nthInternalStream n =
      CudaStream.internal ((n % size_t_mod) % num_internal_streams)) ∧
    ∀ n, n < size_t_mod →
      nthInternalStream n = CudaStream.internal (n % 5) := by
  refine ⟨rfl, fun n => ?_, fun n hn => ?_⟩
  · simp [nthInternalStream, get_internal_stream, curStream_after_calls]
  · simp [nthInternalStream, get_internal_stream, curStream_after_calls,
      Nat.mod_eq_of_lt hn, num_internal_streams]

/-- Closed instance of `internal_streams_round_robin`: the 7th call
(below the wrap) returns pool index 7 mod 5 = 2. -/
theorem internal_streams_round_robin_witness :
    7 < size_t_mod ∧ nthInternalStream 7 = CudaStream.internal (7 % 5) :=
  ⟨by decide, internal_streams_round_robin.2.2 7 (by decide)⟩

/-- The behavior C5 ascribes to a blocking call: the state is created and
enqueued on the user's (communicator's) stream, nothing else happens — no
event is recorded, no stream is made to wait, no exception — and the call
has no request out-parameter at all (`BlockingResult` carries none). -/
def issuesBlockingOnUserStream (r : BlockingResult) (st : CollState) : Prop :=
  r = ⟨[Action.enqueue st], none⟩

/-- The behavior C5 ascribes to a non-blocking call starting from CUDA
globals `cs`: the static sync event is recorded on the user's stream, the
internal stream drawn from the pool is made to wait on it, the state is
created and enqueued on that internal stream, a pooled event is recorded
on the internal stream, and the request is built from that event and the
user's stream. -/
def issuesNonblockingViaInternalStream (r : CallResult) (cs : CudaState)
    (comm : HostTransferCommunicator) (st : CudaStream → CollState) : Prop :=
  r = ⟨⟨(cs.curStream + 1) % size_t_mod, cs.nextEvent + 1⟩,
       [Action.eventRecord EventId.sync comm.stream,
        Action.streamWaitEvent
          (CudaStream.internal (cs.curStream % num_internal_streams))
          EventId.sync,
        Action.enqueue
          (st (CudaStream.internal (cs.curStream % num_internal_streams))),
        Action.eventRecord (EventId.pooled cs.nextEvent)
          (CudaStream.internal (cs.curStream % num_internal_streams))],
       some ⟨EventId.pooled cs.nextEvent, comm.stream⟩, none⟩

/-- The C5 contract over all eight collectives of the backend, at the
`automatic` algorithm. -/
def blockingNonblockingContract (sendbuf recvbuf buf count root : Nat)
    (op : ReductionOperator) (comm : HostTransferCommunicator)
    (req : ReqType) (cs : CudaState) : Prop :=
  issuesBlockingOnUserStream
    (Allreduce sendbuf recvbuf count op comm allreduceAlgoAutomatic)
    (CollState.allreduce sendbuf recvbuf count op comm.commId comm.stream) ∧
  issuesBlockingOnUserStream
    (Allgather sendbuf recvbuf count comm collectiveAlgoAutomatic)
    (CollState.allgather sendbuf recvbuf count comm.commId comm.stream) ∧
  issuesBlockingOnUserStream
    (Alltoall sendbuf recvbuf count comm collectiveAlgoAutomatic)
    (CollState.alltoall sendbuf recvbuf count comm.commId comm.stream) ∧
  issuesBlockingOnUserStream
    (Bcast buf count root comm collectiveAlgoAutomatic)
    (CollState.bcast buf count root comm.commId comm.stream) ∧
  issuesBlockingOnUserStream
    (Gather sendbuf recvbuf count root comm collectiveAlgoAutomatic)
    (CollState.gather sendbuf recvbuf count root comm.commId comm.stream) ∧
  issuesBlockingOnUserStream
    (Reduce sendbuf recvbuf count op root comm collectiveAlgoAutomatic)
    (CollState.reduce sendbuf recvbuf count op root comm.commId comm.stream) ∧
  issuesBlockingOnUserStream
    (Reduce_scatter sendbuf recvbuf count op comm collectiveAlgoAutomatic)
    (CollState.reduce_scatter sendbuf recvbuf count op comm.commId comm.stream) ∧
  issuesBlockingOnUserStream
    (Scatter sendbuf recvbuf count root comm collectiveAlgoAutomatic)
    (CollState.scatter sendbuf recvbuf count root comm.commId comm.stream) ∧
  issuesNonblockingViaInternalStream
    (NonblockingAllreduce sendbuf recvbuf count op comm req
      allreduceAlgoAutomatic cs) cs comm
    (CollState.allreduce sendbuf recvbuf count op comm.commId) ∧
  issuesNonblockingViaInternalStream
    (NonblockingAllgather sendbuf recvbuf count comm req
      collectiveAlgoAutomatic cs) cs comm
    (CollState.allgather sendbuf recvbuf count comm.commId) ∧
  issuesNonblockingViaInternalStream
    (NonblockingAlltoall sendbuf recvbuf count comm req
      collectiveAlgoAutomatic cs) cs comm
    (CollState.alltoall sendbuf recvbuf count comm.commId) ∧
  issuesNonblockingViaInternalStream
    (NonblockingBcast buf count root comm req
      collectiveAlgoAutomatic cs) cs comm
    (CollState.bcast buf count root comm.commId) ∧
  issuesNonblockingViaInternalStream
    (NonblockingGather sendbuf recvbuf count root comm req
      collectiveAlgoAutomatic cs) cs comm
    (CollState.gather sendbuf recvbuf count root comm.commId) ∧
  issuesNonblockingViaInternalStream
    (NonblockingReduce sendbuf recvbuf count op root comm req
      collectiveAlgoAutomatic cs) cs comm
    (CollState.reduce sendbuf recvbuf count op root comm.commId) ∧
  issuesNonblockingViaInternalStream
    (NonblockingReduce_scatter sendbuf recvbuf count op comm req
      collectiveAlgoAutomatic cs) cs comm
    (CollState.reduce_scatter sendbuf recvbuf count op comm.commId) ∧
  issuesNonblockingViaInternalStream
    (NonblockingScatter sendbuf recvbuf count root comm req
      collectiveAlgoAutomatic cs) cs comm
    (CollState.scatter sendbuf recvbuf count root comm.commId)

/-- C5: for every collective of the backend with nonzero count, the
blocking form enqueues the state on the user's stream with no
pre-synchronization, no end-event recording and no request, while the
non-blocking form pre-syncs the pool's internal stream on the user's
stream via the recorded sync event, enqueues the state on the internal
stream, and produces the request from an event recorded on the internal
stream. -/
theorem blocking_vs_nonblocking_issue (sendbuf recvbuf buf count root : Nat)
    (op : ReductionOperator) (comm : HostTransferCommunicator)
    (req : ReqType) (cs : CudaState) (h : count ≠ 0) :
    blockingNonblockingContract sendbuf recvbuf buf count root op comm
      req cs := by
  unfold blockingNonblockingContract issuesBlockingOnUserStream
    issuesNonblockingViaInternalStream
  refine ⟨?_, ?_, ?_, ?_, ?_, ?_, ?_, ?_, ?_, ?_, ?_, ?_, ?_, ?_, ?_, ?_⟩ <;>
    simp [Allreduce, Allgather, Alltoall, Bcast, Gather, Reduce,
      Reduce_scatter, Scatter, NonblockingAllreduce, NonblockingAllgather,
      NonblockingAlltoall, NonblockingBcast, NonblockingGather,
      NonblockingReduce, NonblockingReduce_scatter, NonblockingScatter,
      do_allreduce, do_allgather, do_alltoall, do_bcast, do_gather,
      do_reduce, do_reduce_scatter, do_scatter,
      sync_internal_stream_with_comm, setup_completion_event,
      get_internal_stream, get_cuda_event, allreduceAlgoAutomatic,
      allreduceAlgoHostTransfer, collectiveAlgoAutomatic, h]

/-- Closed instance of `blocking_vs_nonblocking_issue` at count 1. -/
theorem blocking_vs_nonblocking_issue_witness :
    (1 : Nat) ≠ 0 ∧
    blockingNonblockingContract 10 20 30 1 0 0
      ⟨7, 0, 4, CudaStream.user 2⟩ none ⟨3, 5⟩ :=
  ⟨by decide,
   blocking_vs_nonblocking_issue 10 20 30 1 0 0
     ⟨7, 0, 4, CudaStream.user 2⟩ none ⟨3, 5⟩ (by decide)⟩

/-- The C7 contract: `automatic` and `host_transfer` give identical
results for blocking and non-blocking allreduce, and a value outside the
enum raises "Invalid algorithm" — for the blocking form with no actions
performed, for the non-blocking form after only the pre-synchronization:
no state is created or enqueued, and the request out-parameter keeps its
previous value. -/
def allreduceAlgoDispatchContract (sendbuf recvbuf count : Nat)
    (op : ReductionOperator) (comm : HostTransferCommunicator)
    (req : ReqType) (algo : Nat) (cs : CudaState) : Prop :=
  Allreduce sendbuf recvbuf count op comm allreduceAlgoAutomatic =
    Allreduce sendbuf recvbuf count op comm allreduceAlgoHostTransfer ∧
  NonblockingAllreduce sendbuf recvbuf count op comm req
      allreduceAlgoAutomatic cs =
    NonblockingAllreduce sendbuf recvbuf count op comm req
      allreduceAlgoHostTransfer cs ∧
  Allreduce sendbuf recvbuf count op comm algo =
    ⟨[], some "Invalid algorithm"⟩ ∧
  NonblockingAllreduce sendbuf recvbuf count op comm req algo cs =
    ⟨{ cs with curStream := (cs.curStream + 1) % size_t_mod },
     sync_internal_stream_with_comm
       (CudaStream.internal (cs.curStream % num_internal_streams)) comm,
     req, some "Invalid algorithm"⟩

/-- C7: for allreduce with nonzero count, the `automatic` and
`host-transfer` algorithm values route through the same implementation
with identical results, and any other algorithm value raises the
"Invalid algorithm" exception with no state created and no request
assigned (for the non-blocking form, only the pre-synchronization
actions precede the throw). -/
theorem allreduce_algo_dispatch (sendbuf recvbuf count : Nat)
    (op : ReductionOperator) (comm : HostTransferCommunicator)
    (req : ReqType) (algo : Nat) (cs : CudaState) (h : count ≠ 0)
    (ha : algo ≠ allreduceAlgoAutomatic)
    (hh : algo ≠ allreduceAlgoHostTransfer) :
    allreduceAlgoDispatchContract sendbuf recvbuf count op comm req
      algo cs := by
  have ha0 : algo ≠ 0 := ha
  have hh1 : algo ≠ 1 := hh
  unfold allreduceAlgoDispatchContract
  refine ⟨?_, ?_, ?_, ?_⟩ <;>
    simp [Allreduce, NonblockingAllreduce, do_allreduce,
      sync_internal_stream_with_comm, setup_completion_event,
      get_internal_stream, get_cuda_event, allreduceAlgoAutomatic,
      allreduceAlgoHostTransfer, h, ha0, hh1]

/-- Closed instance of `allreduce_algo_dispatch` at count 1 and the
out-of-enum algorithm value 7. -/
theorem allreduce_algo_dispatch_witness :
    (1 : Nat) ≠ 0 ∧ (7 : Nat) ≠ allreduceAlgoAutomatic ∧
    (7 : Nat) ≠ allreduceAlgoHostTransfer ∧
    allreduceAlgoDispatchContract 10 20 1 0
      ⟨7, 0, 4, CudaStream.user 2⟩ none 7 ⟨3, 5⟩ :=
  ⟨by decide, by decide, by decide,
   allreduce_algo_dispatch 10 20 1 0 ⟨7, 0, 4, CudaStream.user 2⟩ none 7
     ⟨3, 5⟩ (by decide) (by decide) (by decide)⟩

/-- The four signaling behaviors of the collective-state templates
(`ht/base_state.hpp` class names): `HostTransferCollectiveSignalAtEndState`,
`HostTransferCollectiveSignalNonRootEarlyState` (whose constructor takes
the `is_root` flag), and the signal-at-start behavior. -/
inductive SignalVariant where
  | signalAtEnd
  | signalNonRootEarly (is_root : Bool)
  | signalAtStart
deriving DecidableEq

/-- Whether the variant records the user-visible event at the end (after
the copy-back): always for signal-at-end, only at the root for
signal-non-root-early, never for signal-at-start. -/
def SignalVariant.signalsAtEnd : SignalVariant → Bool
  | .signalAtEnd => true
  | .signalNonRootEarly r => r
  | .signalAtStart => false

/-- The operations `GatherAlState::GatherAlState` (src/unnamed/part_001)
performs on the user's stream, in order. `host_mem` is the pinned staging
buffer, addressed here by offsets from 0; `sendbuf`/`recvbuf` are device
addresses; `rank`/`root`/`count`/`size` as in the source; `startE`/`endE`
are the state's pool-drawn start and end events. At the root, the
device-to-host copy lands at offset `rank*count` and reads from
`sendbuf + rank*count` when `sendbuf == recvbuf`, else from `sendbuf`;
at a non-root it lands at offset 0 reading from `sendbuf`. Then the
start event is recorded and the sync-flag wait is enqueued; the root
additionally copies `count*size` elements back to `recvbuf` and records
the end event. -/
def GatherAlState.ctorActions (sendbuf recvbuf count root rank size : Nat)
    (stream : CudaStream) (startE endE : EventId) : List Action :=
  (if rank = root then
     [Action.memcpyD2H (rank * count)
        (if sendbuf = recvbuf then sendbuf + rank * count else sendbuf)
        count stream]
   else
     [Action.memcpyD2H 0 sendbuf count stream])
  ++ [Action.eventRecord startE stream, Action.gpuWait stream]
  ++ (if rank = root then
        [Action.memcpyH2D recvbuf 0 (count * size) stream,
         Action.eventRecord endE stream]
      else [])

/-- The operations `ht::BarrierAlState::BarrierAlState`
(src/unnamed/part_002) performs on the user's stream, in order: it stages
no data ("Just wait until we should start this"), records the start
event, and enqueues the sync-flag wait — nothing else, although the class
derives from `HostTransferCollectiveSignalAtEndState`. -/
def BarrierAlState.ctorActions (stream : CudaStream) (startE : EventId) :
    List Action :=
  [Action.eventRecord startE stream, Action.gpuWait stream]

/-- The construction sequence C6 claims of every collective state, as a
checker on the performed operations: exactly (i) a device-to-host copy
into the staging buffer, (ii) a record of the start event, (iii) the
sync-flag wait, and (iv) — if and only if the variant signals at end — a
host-to-device copy followed by the record of the end event, all on the
user's stream `s`. -/
def followsCtorSpec (v : SignalVariant) (s : CudaStream)
    (acts : List Action) : Bool :=
  match acts with
  | Action.memcpyD2H _ _ _ s1 :: Action.eventRecord _ s2 ::
      Action.gpuWait s3 :: rest =>
    decide (s1 = s) && decide (s2 = s) && decide (s3 = s) &&
      (if v.signalsAtEnd then
        match rest with
        | [Action.memcpyH2D _ _ _ s4, Action.eventRecord _ s5] =>
          decide (s4 = s) && decide (s5 = s)
        | _ => false
      else rest.isEmpty)
  | _ => false

/-- C6 counterexample: the barrier state is a signal-at-end variant, yet
its constructor performs no device-to-host staging copy and neither the
copy-back nor the end-event record, so the claimed construction sequence
fails on it (at a concrete stream and start event). -/
theorem barrier_ctor_breaks_claimed_sequence :
    followsCtorSpec SignalVariant.signalAtEnd (CudaStream.user 0)
      (BarrierAlState.ctorActions (CudaStream.user 0) (EventId.pooled 0)) =
      false := by decide

/-- C6 amended: the gather state's construction performs exactly the
claimed sequence — staging copy in, start-event record, sync-flag wait,
and, iff its variant signals at end (i.e. at the root), copy-back and
end-event record — while the barrier state, which stages no user data,
performs only the start-event record and the sync-flag wait, omitting
the staging copy and, despite its signal-at-end variant, the copy-back
and end-event record. -/
theorem ctor_sequence_gather_ok_barrier_degenerate
    (sendbuf recvbuf count root rank size : Nat) (stream : CudaStream)
    (startE endE : EventId) :
    followsCtorSpec (SignalVariant.signalNonRootEarly (decide (rank = root)))
      stream
      (GatherAlState.ctorActions sendbuf recvbuf count root rank size
        stream startE endE) = true ∧
    BarrierAlState.ctorActions stream startE =
      [Action.eventRecord startE stream, Action.gpuWait stream] := by
  refine ⟨?_, rfl⟩
  by_cases hr : rank = root <;>
    simp [GatherAlState.ctorActions, followsCtorSpec,
      SignalVariant.signalsAtEnd, hr]

/-- `MPI_IN_PLACE` versus an ordinary send buffer in a transport call. -/
inductive MPISendArg where
  | inPlace
  | buffer (addr : Nat)
deriving DecidableEq

/-- The arguments `GatherAlState::start_mpi_op` passes to `MPI_Igather`:
the send argument, the receive buffer (the staging buffer, offset 0
here), the per-rank count and the root. -/
structure IgatherCall where
  sendArg : MPISendArg
  recv_addr : Nat
  count : Nat
  root : Nat
deriving DecidableEq

/-- `GatherAlState::start_mpi_op` (src/unnamed/part_001): at the root the
transport gather is issued with `MPI_IN_PLACE` as the send buffer and the
staging buffer as the receive buffer; at a non-root the staging buffer is
passed as the send buffer. -/
def GatherAlState.start_mpi_op (is_root : Bool) (host_mem count root : Nat) :
    IgatherCall :=
  if is_root then ⟨MPISendArg.inPlace, host_mem, count, root⟩
  else ⟨MPISendArg.buffer host_mem, host_mem, count, root⟩

/-- The intervals (offset, length) of the staging buffer written by the
device-to-host copies among a list of performed operations. -/
def hostWritesOfActions (acts : List Action) : List (Nat × Nat) :=
  acts.filterMap fun a =>
    match a with
    | Action.memcpyD2H dst _ len _ => some (dst, len)
    | _ => none

/-- Standard transport (MPI) semantics of the gather at the root, as the
set of receive-buffer intervals it writes: one slot of `count` elements
per rank, except that with `MPI_IN_PLACE` as the root's send argument the
root's own slot is left untouched (the transport takes the root's
contribution to already be in place). The transport is an external
collaborator of the embedded sources; only its documented write-set is
modelled. -/
def igatherRootWrites (sendArg : MPISendArg) (rank size count : Nat) :
    List (Nat × Nat) :=
  (List.range size).filterMap fun j =>
    if sendArg = MPISendArg.inPlace ∧ j = rank then none
    else some (j * count, count)

/-- Whether the interval `w` (offset, length) covers position `pos`. -/
def coversPos (w : Nat × Nat) (pos : Nat) : Bool :=
  decide (w.1 ≤ pos) && decide (pos < w.1 + w.2)

/-- How many of the intervals in `ws` cover position `pos`. -/
def writeCount (ws : List (Nat × Nat)) (pos : Nat) : Nat :=
  ws.countP fun w => coversPos w pos

/-- The C9 contract at the root rank (`rank = root`): the constructor's
first operation copies the root's own contribution into slot
`root*count` of the staging buffer, reading from `sendbuf + root*count`
when the send and receive buffers coincide and from `sendbuf` otherwise;
`start_mpi_op` issues the transport gather with `MPI_IN_PLACE`; and every
position `pos` of the root's slot is written exactly once across the
constructor's staging writes and the transport's writes. -/
def gatherRootSlotContract (sendbuf recvbuf count root size pos : Nat)
    (stream : CudaStream) (startE endE : EventId) : Prop :=
  (GatherAlState.ctorActions sendbuf recvbuf count root root size stream
      startE endE).head? =
    some (Action.memcpyD2H (root * count)
      (if sendbuf = recvbuf then sendbuf + root * count else sendbuf)
      count stream) ∧
  (GatherAlState.start_mpi_op true 0 count root).sendArg =
    MPISendArg.inPlace ∧
  writeCount
    (hostWritesOfActions
        (GatherAlState.ctorActions sendbuf recvbuf count root root size
          stream startE endE) ++
      igatherRootWrites MPISendArg.inPlace root size count) pos = 1

/-- C9: at the gather root, the root's slot of the staging buffer is
written exactly once — by the constructor's device-to-host copy (whose
source is `sendbuf + root*count` when `sendbuf = recvbuf`, else
`sendbuf`) — because `start_mpi_op` passes `MPI_IN_PLACE`, under which
the transport leaves the root's slot untouched. -/
theorem gather_root_slot_written_once (sendbuf recvbuf count root size pos : Nat)
    (stream : CudaStream) (startE endE : EventId)
    (hlo : root * count ≤ pos) (hhi : pos < root * count + count) :
    gatherRootSlotContract sendbuf recvbuf count root size pos stream
      startE endE := by
  have hw : hostWritesOfActions
      (GatherAlState.ctorActions sendbuf recvbuf count root root size
        stream startE endE) = [(root * count, count)] := by
    simp [GatherAlState.ctorActions, hostWritesOfActions]
  refine ⟨by simp [GatherAlState.ctorActions], rfl, ?_⟩
  rw [writeCount, hw, List.countP_append]
  have h1 : List.countP (fun w => coversPos w pos) [(root * count, count)] = 1 := by
    have hcov : coversPos (root * count, count) pos = true := by
      simp [coversPos]; omega
    simp [List.countP_cons, hcov]
  have h2 : List.countP (fun w => coversPos w pos)
      (igatherRootWrites MPISendArg.inPlace root size count) = 0 := by
    rw [List.countP_eq_zero]
    intro w hw2
    simp only [igatherRootWrites, List.mem_filterMap, List.mem_range] at hw2
    obtain ⟨j, _, hcond⟩ := hw2
    by_cases hj : j = root
    · simp [hj] at hcond
    · simp [hj] at hcond
      intro hc
      rw [← hcond] at hc
      simp only [coversPos, Bool.and_eq_true, decide_eq_true_eq] at hc
      obtain ⟨hc1, hc2⟩ := hc
      rcases Nat.lt_or_ge j root with hjr | hjr
      · have hmul : (j + 1) * count ≤ root * count :=
          Nat.mul_le_mul_right _ hjr
        rw [Nat.succ_mul] at hmul
        omega
      · have hgt : root + 1 ≤ j :=
          Nat.lt_of_le_of_ne hjr fun he => hj he.symm
        have hmul : (root + 1) * count ≤ j * count :=
          Nat.mul_le_mul_right _ hgt
        rw [Nat.succ_mul] at hmul
        omega
  rw [h1, h2]

/-- Closed instance of `gather_root_slot_written_once`: two elements per
rank, root 1 of 3 ranks, in-place user buffers, position 2 (the first
element of the root's slot). -/
theorem gather_root_slot_written_once_witness :
    1 * 2 ≤ 2 ∧ 2 < 1 * 2 + 2 ∧
    gatherRootSlotContract 10 10 2 1 3 2 (CudaStream.user 0)
      (EventId.pooled 0) (EventId.pooled 1) :=
  ⟨by decide, by decide,
   gather_root_slot_written_once 10 10 2 1 3 2 (CudaStream.user 0)
     (EventId.pooled 0) (EventId.pooled 1) (by decide) (by decide)⟩

end Al
